import Mathlib

/-!
Verification development for the "distracted" browser extension.

Shallow embedding of the core logic:
  * `src/lib/storage.ts`: `urlMatchesPattern`, `urlMatchesSiteRules`,
    `findMatchingBlockedSite`;
  * `src/entrypoints/background/blockers/webRequest.ts`: `shouldBlockUrl`,
    `grantAccess`, `revokeAccess`, `findTabsOnBlockedSite`, `isSiteUnlocked`,
    `getUnlockState`, `handleRelockAlarm`;
  * `src/entrypoints/background/index.ts`: the blocking decision of
    `checkAndBlockUrl`;
  * `src/entrypoints/background/utils.ts`: `isInternalUrl`.

Modelling conventions:
  * JavaScript strings are Lean `String`s; the character-level operations
    (`toLowerCase`, `trim`, the anchored regexes built by the matcher) are
    modelled over `String.data : List Char`.  `String.prototype.toLowerCase`
    is modelled by ASCII lowercasing (`Char.toLower`), which agrees with it
    on all ASCII input (hostnames, paths and patterns of interest).
  * `new URL(url)` is not re-implemented; a parse result is a value of
    `Option URLParts`: `none` models the `TypeError` thrown on an unparsable
    string (caught by the `try`/`catch` in `urlMatchesPattern`), and
    `some u` carries the parsed components.
  * `Date.now()` is an explicit `now : Nat` argument (milliseconds).
  * The module-level `unlockedSites` map and the `browser.alarms` table are
    an explicit `BlockerState` record threaded through the operations;
    `browser.tabs.query({})` is an explicit list of open tabs.
-/

/-- Model of `String.prototype.toLowerCase` (ASCII fragment), applied
characterwise; `Char.toLower` lowers exactly the ASCII letters `A`-`Z`. -/
def lowerStr (l : List Char) : List Char := l.map Char.toLower

/-- Whitespace stripped by `String.prototype.trim` (ASCII fragment). -/
def jsWhitespace (c : Char) : Bool :=
  c == ' ' || c == '\t' || c == '\n' || c == '\r' || c == '\x0b' || c == '\x0c'

/-- Model of `String.prototype.trim`: drop whitespace from both ends. -/
def trimEnds (l : List Char) : List Char :=
  ((l.dropWhile jsWhitespace).reverse.dropWhile jsWhitespace).reverse

/-- Model of `pattern.replace(/^https?:\/\//, "")`: remove one leading
`https://` or `http://`. -/
def stripScheme (l : List Char) : List Char :=
  if List.isPrefixOf ['h', 't', 't', 'p', 's', ':', '/', '/'] l then l.drop 8
  else if List.isPrefixOf ['h', 't', 't', 'p', ':', '/', '/'] l then l.drop 7
  else l

/-- Model of `.replace(/^www\./, "")`: remove one leading `www.`. -/
def stripWww (l : List Char) : List Char :=
  if List.isPrefixOf ['w', 'w', 'w', '.'] l then l.drop 4 else l

/-- Model of `String.prototype.includes` for a single character. -/
def containsChar (l : List Char) (c : Char) : Bool := l.any (fun x => x == c)

/-- Model of `.replace(/\/$/, "")`: remove one trailing slash. -/
def stripTrailingSlash (l : List Char) : List Char :=
  match l.reverse with
  | '/' :: rest => rest.reverse
  | _ => l

/-- Model of `String.prototype.startsWith "*."` on a pattern. -/
def isStarDot (l : List Char) : Bool :=
  match l with
  | '*' :: '.' :: _ => true
  | _ => false

/-- Fuelled glob matcher: the matcher's regexes are built by escaping every
regex metacharacter except `*` and translating `*` to `.*`, anchored with
`^...$` and flagged case-insensitive; such a regex matches the text exactly
when this glob does.  The fuel only drives termination and is always
sufficient when called through `globMatch`. -/
def globFuel : Nat → List Char → List Char → Bool
  | 0, _, _ => false
  | _ + 1, [], t => t.isEmpty
  | fuel + 1, '*' :: ps, t =>
      globFuel fuel ps t ||
        (match t with
         | [] => false
         | _ :: ts => globFuel fuel ('*' :: ps) ts)
  | fuel + 1, p :: ps, t =>
      match t with
      | [] => false
      | x :: ts => (Char.toLower p == Char.toLower x) && globFuel fuel ps ts

/-- Model of `new RegExp("^" + escaped + "$", "i").test txt` where `escaped`
is the pattern with all metacharacters except `*` escaped and `*` turned
into `.*` (storage.ts lines 119-125, 135-140, 156-161). -/
def globMatch (pat txt : List Char) : Bool :=
  globFuel (pat.length + txt.length + 1) pat txt

/-- Components of a successfully parsed URL (the fields of a JS `URL`
object read, or deliberately not read, by the matcher). -/
structure URLParts where
  scheme : String
  username : String
  password : String
  hostname : String
  port : String
  pathname : String
  search : String
  fragment : String
deriving DecidableEq, Repr

/-- Host-part matching of `urlMatchesPattern` (storage.ts lines 112-131;
the same algorithm is duplicated inline for host-only patterns at lines
150-168).  `hostname` is the already-lowercased `urlObj.hostname`. -/
def hostPatternMatches (hostname hostPattern : List Char) : Bool :=
  let normalizedHost := stripWww (lowerStr hostname)
  if isStarDot hostPattern then
    let domain := hostPattern.drop 2
    normalizedHost == domain || List.isSuffixOf ('.' :: domain) normalizedHost
  else if containsChar hostPattern '*' then
    globMatch hostPattern normalizedHost || globMatch hostPattern (lowerStr hostname)
  else
    normalizedHost == hostPattern ||
      lowerStr hostname == hostPattern ||
      lowerStr hostname == ['w', 'w', 'w', '.'] ++ hostPattern

/-- Normalization of the pattern argument of `urlMatchesPattern`
(storage.ts lines 99-103): lowercase, trim, strip one leading scheme and
one leading `www.`. -/
def normalizePattern (l : List Char) : List Char :=
  stripWww (stripScheme (trimEnds (lowerStr l)))

/-- Body of `urlMatchesPattern` (storage.ts lines 93-172) after a
successful `new URL(url)`: `hostname0` and `pathname0` are
`urlObj.hostname` and `urlObj.pathname`. -/
def urlMatchesPatternCore (hostname0 pathname0 patternStr : List Char) : Bool :=
  let hostname := lowerStr hostname0
  let pathname := lowerStr pathname0
  let normalizedPattern := normalizePattern patternStr
  if containsChar normalizedPattern '/' then
    let hostPattern := normalizedPattern.takeWhile (fun c => !(c == '/'))
    let pathPattern := normalizedPattern.dropWhile (fun c => !(c == '/'))
    let normalizedPath := lowerStr pathname
    let normalizedPathPattern := lowerStr pathPattern
    if !(hostPatternMatches hostname hostPattern) then false
    else if containsChar normalizedPathPattern '*' then
      globMatch normalizedPathPattern normalizedPath
    else
      let cleanPattern := stripTrailingSlash normalizedPathPattern
      let cleanPath := stripTrailingSlash normalizedPath
      cleanPath == cleanPattern || List.isPrefixOf (cleanPattern ++ ['/']) cleanPath
  else
    hostPatternMatches hostname normalizedPattern

/-- `urlMatchesPattern` from storage.ts.  The `Option URLParts` argument is
the outcome of `new URL(url)`: `none` is the thrown `TypeError`, which the
source's `try`/`catch` turns into `false`. -/
def urlMatchesPattern (url : Option URLParts) (pattern : String) : Bool :=
  match url with
  | none => false
  | some u => urlMatchesPatternCore u.hostname.data u.pathname.data pattern.data

/-- `PatternRule` from storage.ts. -/
structure PatternRule where
  pattern : String
  allow : Bool
deriving DecidableEq, Repr

/-- `BlockedSite` from storage.ts.  The `unlockMethod` and
`challengeSettings` fields are omitted: their types live outside the core
sources and no core operation reads them. -/
structure BlockedSite where
  id : String
  name : String
  rules : List PatternRule
  autoRelockAfter : Option Nat
  enabled : Bool
  createdAt : Nat
deriving DecidableEq, Repr

/-- The rule loop of `urlMatchesSiteRules` (storage.ts lines 177-190):
scan rules in order with a running `isBlocked` flag; a matching allow rule
returns `false` immediately, a matching block rule sets the flag. -/
def rulesLoop (url : Option URLParts) : List PatternRule → Bool → Bool
  | [], isBlocked => isBlocked
  | r :: rs, isBlocked =>
    if urlMatchesPattern url r.pattern then
      (if r.allow then false else rulesLoop url rs true)
    else rulesLoop url rs isBlocked

/-- `urlMatchesSiteRules` from storage.ts (lines 174-191). -/
def urlMatchesSiteRules (url : Option URLParts) (site : BlockedSite) : Bool :=
  if !site.enabled then false else rulesLoop url site.rules false

/-- `findMatchingBlockedSite` from storage.ts (lines 193-198); the list of
sites read from storage is an explicit argument. -/
def findMatchingBlockedSite (url : Option URLParts) (sites : List BlockedSite) :
    Option BlockedSite :=
  sites.find? (fun site => urlMatchesSiteRules url site)

/-- `UnlockState` from webRequest.ts. -/
structure UnlockState where
  siteId : String
  expiresAt : Nat
deriving DecidableEq, Repr

/-- The module state of webRequest.ts: the in-memory `unlockedSites` map
and the `browser.alarms` table (alarm name to its `when` timestamp). -/
structure BlockerState where
  unlockedSites : String → Option UnlockState
  alarms : String → Option Nat

/-- The state at module load: both tables empty. -/
def emptyBlockerState : BlockerState := ⟨fun _ => none, fun _ => none⟩

/-- Modelled from the spec: the constant `ALARM_PREFIX` is imported from
`lib/consts`, which is not among the sources; the spec fixes only
"Tag format: a fixed prefix concatenated with `siteId`". -/
def alarmTag : String := "relock-"

/-- Modelled from the spec: `EXTENSION_SCHEMES` from `lib/consts` (not
among the sources); the Chrome value used as default by utils.ts. -/
def extensionScheme : String := "chrome-extension://"

/-- Modelled from the spec: `BROWSER_SCHEMES` from `lib/consts` (not
among the sources); the Chrome value used as default by utils.ts. -/
def browserScheme : String := "chrome://"

/-- `isInternalUrl` from utils.ts: empty URL is falsy, otherwise check the
extension scheme, the browser scheme and `about:`. -/
def isInternalUrl (url : String) : Bool :=
  if url == "" then false
  else
    List.isPrefixOf extensionScheme.data url.data ||
      List.isPrefixOf browserScheme.data url.data ||
      List.isPrefixOf "about:".data url.data

/-- An open browser tab as returned by `browser.tabs.query({})`.  The
`parsedUrl` field is the parse of `url` (see `URLParts`), carried
alongside because the source both tests the raw string and re-parses it in
`urlMatchesSiteRules`. -/
structure Tab where
  id : Option Nat
  url : Option String
  parsedUrl : Option URLParts

/-- The tab loop of `findTabsOnBlockedSite` (webRequest.ts lines 171-179):
`if (!tab.id || !tab.url) continue` skips a missing or zero id and a
missing or empty url, internal URLs are skipped, matching tab ids are
collected in order. -/
def collectMatchingTabs (site : BlockedSite) : List Tab → List Nat
  | [] => []
  | tab :: rest =>
    match tab.id, tab.url with
    | some tid, some u =>
      if tid == 0 then collectMatchingTabs site rest
      else if u == "" then collectMatchingTabs site rest
      else if isInternalUrl u then collectMatchingTabs site rest
      else if urlMatchesSiteRules tab.parsedUrl site then
        tid :: collectMatchingTabs site rest
      else collectMatchingTabs site rest
    | _, _ => collectMatchingTabs site rest

/-- `findTabsOnBlockedSite` from webRequest.ts (lines 164-182);
`cachedSites` and the open-tab list are explicit arguments. -/
def findTabsOnBlockedSite (siteId : String) (cachedSites : List BlockedSite)
    (tabs : List Tab) : List Nat :=
  match cachedSites.find? (fun s => s.id == siteId) with
  | none => []
  | some site => collectMatchingTabs site tabs

/-- `grantAccess` from webRequest.ts (lines 129-144): default the duration
to 60 minutes, compute `expiresAt = now + duration`, overwrite the
`unlockedSites` entry and (re)create the relock alarm.  Returns the
`expiresAt` of the response object together with the new state. -/
def grantAccess (siteId : String) (durationMinutes : Option Nat) (now : Nat)
    (st : BlockerState) : Nat × BlockerState :=
  let durationMs := (durationMinutes.getD 60) * 60 * 1000
  let expiresAt := now + durationMs
  (expiresAt,
    { st with
      unlockedSites := fun k =>
        if k == siteId then some ⟨siteId, expiresAt⟩ else st.unlockedSites k
      alarms := fun k =>
        if k == alarmTag ++ siteId then some expiresAt else st.alarms k })

/-- `revokeAccess` from webRequest.ts (lines 149-159): delete the unlock
entry, clear the alarm, then return the tabs currently on the site. -/
def revokeAccess (siteId : String) (cachedSites : List BlockedSite)
    (tabs : List Tab) (st : BlockerState) : List Nat × BlockerState :=
  let st' : BlockerState :=
    { st with
      unlockedSites := fun k => if k == siteId then none else st.unlockedSites k
      alarms := fun k => if k == alarmTag ++ siteId then none else st.alarms k }
  (findTabsOnBlockedSite siteId cachedSites tabs, st')

/-- `isSiteUnlocked` from webRequest.ts (lines 187-197): lazy expiry — an
entry with `expiresAt <= now` is deleted and reported as locked. -/
def isSiteUnlocked (siteId : String) (now : Nat) (st : BlockerState) :
    Bool × BlockerState :=
  match st.unlockedSites siteId with
  | none => (false, st)
  | some state =>
    if state.expiresAt ≤ now then
      (false,
        { st with
          unlockedSites := fun k => if k == siteId then none else st.unlockedSites k })
    else (true, st)

/-- `getUnlockState` from webRequest.ts (lines 202-214): same lazy expiry
as `isSiteUnlocked`, returning the entry instead of a Bool. -/
def getUnlockState (siteId : String) (now : Nat) (st : BlockerState) :
    Option UnlockState × BlockerState :=
  match st.unlockedSites siteId with
  | none => (none, st)
  | some state =>
    if state.expiresAt ≤ now then
      (none,
        { st with
          unlockedSites := fun k => if k == siteId then none else st.unlockedSites k })
    else (some state, st)

/-- `handleRelockAlarm` from webRequest.ts (lines 219-228): ignore alarms
without the relock tag, otherwise extract the siteId from the alarm name
and revoke unconditionally. -/
def handleRelockAlarm (alarmName : String) (cachedSites : List BlockedSite)
    (tabs : List Tab) (st : BlockerState) :
    Option (String × List Nat) × BlockerState :=
  if List.isPrefixOf alarmTag.data alarmName.data then
    let siteId : String := ⟨alarmName.data.drop alarmTag.data.length⟩
    let r := revokeAccess siteId cachedSites tabs st
    (some (siteId, r.1), r.2)
  else (none, st)

/-- The skip condition of `shouldBlockUrl` (webRequest.ts line 50): the
site has an unlock entry whose `expiresAt` is in the future. -/
def hasLiveGrant (st : BlockerState) (siteId : String) (now : Nat) : Bool :=
  match st.unlockedSites siteId with
  | some u => now < u.expiresAt
  | none => false

/-- `shouldBlockUrl` from webRequest.ts (lines 40-61): walk `cachedSites`
in order, skipping disabled sites and sites with a live unlock entry, and
stop at the first remaining site whose rules match. -/
def shouldBlockUrl (url : Option URLParts) (now : Nat) (st : BlockerState) :
    List BlockedSite → Bool × Option BlockedSite
  | [] => (false, none)
  | site :: rest =>
    if !site.enabled then shouldBlockUrl url now st rest
    else if hasLiveGrant st site.id now then shouldBlockUrl url now st rest
    else if urlMatchesSiteRules url site then (true, some site)
    else shouldBlockUrl url now st rest

/-- The blocking decision of `checkAndBlockUrl` (background/index.ts lines
85-105): `findMatchingBlockedSite`, then `isSiteUnlocked` on the returned
site; blocked exactly when a site is found and it is not unlocked. -/
def checkAndBlockUrlDecision (url : Option URLParts) (now : Nat)
    (st : BlockerState) (sites : List BlockedSite) : Bool :=
  match findMatchingBlockedSite url sites with
  | none => false
  | some site => !(isSiteUnlocked site.id now st).1


/-!  Helper lemmas. -/

/-- Valid code points survive the `Char.ofNat` round trip. -/
theorem toNat_ofNat_valid (n : Nat) (h : n.isValidChar) : (Char.ofNat n).toNat = n := by
  rw [Char.ofNat, dif_pos h]
  rfl

/-- The code point computed by `Char.toLower`. -/
theorem toLower_toNat (c : Char) :
    (Char.toLower c).toNat = if c.toNat ≥ 65 ∧ c.toNat ≤ 90 then c.toNat + 32 else c.toNat := by
  rw [Char.toLower]
  split
  · next h => exact toNat_ofNat_valid _ (Or.inl (by omega))
  · rfl

/-- Characters outside `A`-`Z` are fixed by `Char.toLower`. -/
theorem toLower_eq_self (c : Char) (h : ¬(c.toNat ≥ 65 ∧ c.toNat ≤ 90)) :
    Char.toLower c = c := by
  rw [Char.toLower, if_neg h]

/-- ASCII lowercasing is idempotent. -/
theorem toLower_idem (c : Char) : Char.toLower (Char.toLower c) = Char.toLower c := by
  by_cases h : c.toNat ≥ 65 ∧ c.toNat ≤ 90
  · apply toLower_eq_self
    rw [toLower_toNat, if_pos h]
    omega
  · rw [toLower_eq_self c h, toLower_eq_self c h]

/-- Lowercasing a string twice is the same as lowercasing it once. -/
theorem lowerStr_idem (l : List Char) : lowerStr (lowerStr l) = lowerStr l := by
  unfold lowerStr
  rw [List.map_map]
  exact List.map_congr_left (fun c _ => toLower_idem c)

/-- `dropWhile` is the identity when no element satisfies the predicate. -/
theorem dropWhile_eq_self_of_all {α} (p : α → Bool) :
    ∀ l : List α, (∀ c ∈ l, p c = false) → l.dropWhile p = l
  | [], _ => rfl
  | a :: l, h => by simp [List.dropWhile_cons, h a (by simp)]

/-- `trimEnds` is the identity on whitespace-free strings. -/
theorem trimEnds_eq_self (l : List Char) (h : ∀ c ∈ l, jsWhitespace c = false) :
    trimEnds l = l := by
  unfold trimEnds
  rw [dropWhile_eq_self_of_all _ l h,
    dropWhile_eq_self_of_all _ l.reverse (fun c hc => h c (List.mem_reverse.mp hc)),
    List.reverse_reverse]

/-- A list is a `isPrefixOf`-prefix of itself followed by anything. -/
theorem isPrefixOf_self_append : ∀ l t : List Char, List.isPrefixOf l (l ++ t) = true
  | [], t => by simp [List.isPrefixOf]
  | a :: l, t => by simp [List.isPrefixOf, isPrefixOf_self_append l t]

/-- C9: an unparsable URL (a `none` parse result, i.e. `new URL` threw and
the `catch` fired) makes `urlMatchesPattern` return `false` for every
pattern; the function is total, so nothing escapes its boundary. -/
theorem c9_malformed_url_fails_closed (pattern : String) :
    urlMatchesPattern none pattern = false := rfl

/-- C10: `urlMatchesPattern` reads only `hostname` and `pathname` of the
parsed URL, so two parsable URLs agreeing on those two components (however
much they differ in scheme, credentials, port, query or fragment) get the
same matching result for every pattern. -/
theorem c10_match_depends_only_on_host_and_path (pattern : String)
    (u1 u2 : URLParts) (hh : u1.hostname = u2.hostname)
    (hp : u1.pathname = u2.pathname) :
    urlMatchesPattern (some u1) pattern = urlMatchesPattern (some u2) pattern := by
  simp only [urlMatchesPattern, hh, hp]

/-- Witness for C10 at two concrete URLs differing in scheme, credentials,
port, query and fragment. -/
theorem c10_witness :
    urlMatchesPattern
        (some ⟨"https:", "user", "pw", "x.com", "8080", "/a", "?q=1", "#frag"⟩)
        "x.com" =
      urlMatchesPattern (some ⟨"http:", "", "", "x.com", "", "/a", "", ""⟩)
        "x.com" :=
  c10_match_depends_only_on_host_and_path "x.com"
    ⟨"https:", "user", "pw", "x.com", "8080", "/a", "?q=1", "#frag"⟩
    ⟨"http:", "", "", "x.com", "", "/a", "", ""⟩ rfl rfl

/-- The rule loop returns `false` whenever some allow rule in the remaining
list matches, whatever the accumulated `isBlocked` flag. -/
theorem rulesLoop_allow_false (url : Option URLParts) (rules : List PatternRule) :
    ∀ acc : Bool,
      (∃ r ∈ rules, r.allow = true ∧ urlMatchesPattern url r.pattern = true) →
      rulesLoop url rules acc = false := by
  induction rules with
  | nil => intro acc h; simp at h
  | cons r rs ih =>
    intro acc h
    rcases h with ⟨r0, hr0, hallow, hmatch⟩
    rcases List.mem_cons.mp hr0 with heq | hmem
    · subst heq
      simp [rulesLoop, hmatch, hallow]
    · by_cases hm : urlMatchesPattern url r.pattern = true
      · by_cases ha : r.allow = true
        · simp [rulesLoop, hm, ha]
        · simp only [rulesLoop, hm, if_true, ha, if_false, Bool.not_eq_true] at *
          simp [ha]
          exact ih true ⟨r0, hmem, hallow, hmatch⟩
      · simp only [rulesLoop, Bool.not_eq_true] at hm ⊢
        simp [hm]
        exact ih acc ⟨r0, hmem, hallow, hmatch⟩

/-- C2: for an enabled site, as soon as some allow rule in the ordered rule
list matches the URL, `urlMatchesSiteRules` returns `false`, regardless of
any block rules before or after it; in particular a site with rule list
`[block A, allow A, block A]` evaluates to `false` on every URL matching
pattern `A`. -/
theorem c2_allow_rule_overrides (url : Option URLParts) (site : BlockedSite)
    (hen : site.enabled = true)
    (h : ∃ r ∈ site.rules, r.allow = true ∧ urlMatchesPattern url r.pattern = true) :
    urlMatchesSiteRules url site = false ∧
    ∀ (a i nm : String) (u2 : Option URLParts) (ar : Option Nat) (cr : Nat),
      urlMatchesPattern u2 a = true →
      urlMatchesSiteRules u2
        ⟨i, nm, [⟨a, false⟩, ⟨a, true⟩, ⟨a, false⟩], ar, true, cr⟩ = false := by
  constructor
  · rw [urlMatchesSiteRules, hen]
    exact rulesLoop_allow_false url site.rules false h
  · intro a i nm u2 ar cr hm
    rw [urlMatchesSiteRules]
    exact rulesLoop_allow_false u2 _ false ⟨⟨a, true⟩, by simp, rfl, hm⟩

/-- Witness for C2: the three-rule interleaving at a concrete site and URL. -/
theorem c2_witness :
    urlMatchesSiteRules (some ⟨"https:", "", "", "reddit.com", "", "/", "", ""⟩)
      ⟨"a", "a", [⟨"reddit.com", false⟩, ⟨"reddit.com", true⟩, ⟨"reddit.com", false⟩],
        none, true, 0⟩ = false :=
  (c2_allow_rule_overrides
      (some ⟨"https:", "", "", "reddit.com", "", "/", "", ""⟩)
      ⟨"a", "a", [⟨"reddit.com", false⟩, ⟨"reddit.com", true⟩, ⟨"reddit.com", false⟩],
        none, true, 0⟩
      rfl ⟨⟨"reddit.com", true⟩, by simp, rfl, by decide⟩).1

/-- C5: `findMatchingBlockedSite` returns the first site in list order whose
rules match, and `none` exactly when no site matches; every site before the
returned one fails to match, so a later also-matching site is never chosen. -/
theorem c5_first_match_wins (url : Option URLParts) (sites : List BlockedSite) :
    (∀ s, findMatchingBlockedSite url sites = some s →
        urlMatchesSiteRules url s = true ∧
        ∃ pre post, sites = pre ++ s :: post ∧
          ∀ t ∈ pre, urlMatchesSiteRules url t = false) ∧
    (findMatchingBlockedSite url sites = none ↔
      ∀ s ∈ sites, urlMatchesSiteRules url s = false) := by
  constructor
  · intro s
    induction sites with
    | nil => intro hs; simp [findMatchingBlockedSite] at hs
    | cons a rest ih =>
      intro hs
      by_cases ha : urlMatchesSiteRules url a = true
      · rw [findMatchingBlockedSite, List.find?_cons_of_pos _ ha] at hs
        obtain rfl := Option.some.inj hs
        exact ⟨ha, [], rest, rfl, by simp⟩
      · rw [findMatchingBlockedSite, List.find?_cons_of_neg _ (by simpa using ha)] at hs
        obtain ⟨h1, pre, post, heq, hall⟩ := ih hs
        refine ⟨h1, a :: pre, post, by simp [heq], ?_⟩
        intro t ht
        rcases List.mem_cons.mp ht with rfl | hmem
        · simpa [Bool.not_eq_true] using ha
        · exact hall t hmem
  · rw [findMatchingBlockedSite, List.find?_eq_none]
    constructor
    · intro h s hm
      simpa [Bool.not_eq_true] using h s hm
    · intro h s hm
      simp [h s hm]

/-- Witness for C5: two sites both matching the URL, the earlier one wins. -/
theorem c5_witness :
    urlMatchesSiteRules (some ⟨"https:", "", "", "reddit.com", "", "/", "", ""⟩)
        ⟨"a", "a", [⟨"reddit.com", false⟩], none, true, 0⟩ = true ∧
      ∃ pre post,
        [(⟨"a", "a", [⟨"reddit.com", false⟩], none, true, 0⟩ : BlockedSite),
         ⟨"b", "b", [⟨"reddit.com", false⟩], none, true, 0⟩] =
          pre ++ (⟨"a", "a", [⟨"reddit.com", false⟩], none, true, 0⟩ : BlockedSite) :: post ∧
        ∀ t ∈ pre,
          urlMatchesSiteRules (some ⟨"https:", "", "", "reddit.com", "", "/", "", ""⟩) t = false :=
  (c5_first_match_wins (some ⟨"https:", "", "", "reddit.com", "", "/", "", ""⟩)
      [⟨"a", "a", [⟨"reddit.com", false⟩], none, true, 0⟩,
       ⟨"b", "b", [⟨"reddit.com", false⟩], none, true, 0⟩]).1
    ⟨"a", "a", [⟨"reddit.com", false⟩], none, true, 0⟩ (by decide)

/-- C6: `grantAccess` returns `expiresAt = now + duration` with the duration
defaulting to 60 minutes, overwrites the unlock entry for the site whatever
was stored before; `isSiteUnlocked` then reports `true` strictly before
`expiresAt`; from `expiresAt` on, `isSiteUnlocked` and `getUnlockState`
delete the entry and report `false` / `none`, and repeated calls after
expiry still report `false` / `none` (all operations are total, so none of
them throws). -/
theorem c6_grant_roundtrip (siteId : String) (d : Option Nat) (now : Nat)
    (st : BlockerState) :
    (grantAccess siteId d now st).1 = now + (d.getD 60) * 60 * 1000 ∧
    ((grantAccess siteId d now st).2).unlockedSites siteId
        = some ⟨siteId, (grantAccess siteId d now st).1⟩ ∧
    (∀ t, t < (grantAccess siteId d now st).1 →
        (isSiteUnlocked siteId t (grantAccess siteId d now st).2).1 = true) ∧
    (∀ t, (grantAccess siteId d now st).1 ≤ t →
        (isSiteUnlocked siteId t (grantAccess siteId d now st).2).1 = false ∧
        ((isSiteUnlocked siteId t (grantAccess siteId d now st).2).2).unlockedSites siteId = none ∧
        (getUnlockState siteId t (grantAccess siteId d now st).2).1 = none ∧
        ((getUnlockState siteId t (grantAccess siteId d now st).2).2).unlockedSites siteId = none ∧
        (isSiteUnlocked siteId t
            ((isSiteUnlocked siteId t (grantAccess siteId d now st).2).2)).1 = false ∧
        (getUnlockState siteId t
            ((getUnlockState siteId t (grantAccess siteId d now st).2).2)).1 = none) := by
  refine ⟨rfl, by simp [grantAccess], ?_, ?_⟩
  · intro t ht
    simp only [grantAccess] at ht ⊢
    simp [isSiteUnlocked, Nat.not_le.mpr ht]
  · intro t ht
    simp only [grantAccess] at ht ⊢
    refine ⟨?_, ?_, ?_, ?_, ?_, ?_⟩ <;>
      simp [isSiteUnlocked, getUnlockState, ht]

/-- Witness for C6: a one-minute grant issued at time 0 is unlocked at
time 5 and locked again at its expiry time 60000. -/
theorem c6_witness :
    (isSiteUnlocked "a" 5 (grantAccess "a" (some 1) 0 emptyBlockerState).2).1 = true ∧
    (isSiteUnlocked "a" 60000 (grantAccess "a" (some 1) 0 emptyBlockerState).2).1 = false :=
  ⟨(c6_grant_roundtrip "a" (some 1) 0 emptyBlockerState).2.2.1 5 (by decide),
   ((c6_grant_roundtrip "a" (some 1) 0 emptyBlockerState).2.2.2 60000 (by decide)).1⟩

/-- C7 counterexample: a 1-minute grant for site `s` at time 0 registers a
deadline trigger; a newer 100-minute grant at time 10000 overwrites the
entry (`expiresAt = 6010000`); when the stale trigger's tag fires,
`handleRelockAlarm` evicts the newer, still-live grant — no `expiresAt`
correspondence check takes place, so the claim fails at this input. -/
theorem c7_counterexample :
    ((grantAccess "s" (some 100) 10000
          (grantAccess "s" (some 1) 0 emptyBlockerState).2).2).unlockedSites "s"
        = some ⟨"s", 6010000⟩ ∧
    ((handleRelockAlarm (alarmTag ++ "s") [] []
          (grantAccess "s" (some 100) 10000
            (grantAccess "s" (some 1) 0 emptyBlockerState).2).2).2).unlockedSites "s"
        = none := by
  constructor
  · decide
  · decide

/-- C7 amended: `handleRelockAlarm` performs no `expiresAt` correspondence
check at all — on any alarm tagged with a siteId it unconditionally behaves
as `revokeAccess` for that site, deleting whatever grant is current (hence
a stale trigger does evict a newer grant). -/
theorem c7_amended_relock_is_unconditional (siteId : String)
    (cachedSites : List BlockedSite) (tabs : List Tab) (st : BlockerState) :
    handleRelockAlarm (alarmTag ++ siteId) cachedSites tabs st =
      (some (siteId, (revokeAccess siteId cachedSites tabs st).1),
        (revokeAccess siteId cachedSites tabs st).2) := by
  obtain ⟨sid⟩ := siteId
  have hdata : (alarmTag ++ String.mk sid).data = alarmTag.data ++ sid :=
    String.data_append alarmTag ⟨sid⟩
  rw [handleRelockAlarm, hdata, isPrefixOf_self_append, if_pos rfl,
    List.drop_left]

/-- C8 counterexample: `revokeAccess` on a site that has no grant at all
still returns the open tabs whose URL matches the site's rules; with one
matching open tab the affected-tab list is `[7]`, not empty, so the claim
fails for a known siteId without a live grant. -/
theorem c8_counterexample :
    emptyBlockerState.unlockedSites "s1" = none ∧
    (revokeAccess "s1"
        [⟨"s1", "r", [⟨"reddit.com", false⟩], none, true, 0⟩]
        [⟨some 7, some "https://reddit.com/",
          some ⟨"https:", "", "", "reddit.com", "", "/", "", ""⟩⟩]
        emptyBlockerState).1 = [7] := by
  constructor
  · rfl
  · decide

/-- C8 amended: for a siteId not present in the cached site list (the
spec's MissingEntity case), `revokeAccess` returns an empty affected-tab
list; being a total function it cannot error.  For a siteId that is in the
list the affected-tab computation runs regardless of whether a grant
exists, so the tab list is empty only when no open tab matches. -/
theorem c8_amended_unknown_site_revoke_empty (siteId : String)
    (cachedSites : List BlockedSite) (tabs : List Tab) (st : BlockerState)
    (h : cachedSites.find? (fun s => s.id == siteId) = none) :
    (revokeAccess siteId cachedSites tabs st).1 = [] := by
  simp [revokeAccess, findTabsOnBlockedSite, h]

/-- Witness for C8 at an unknown siteId with a nonempty cache and an open
matching tab. -/
theorem c8_witness :
    (revokeAccess "nope"
        [⟨"s1", "r", [⟨"reddit.com", false⟩], none, true, 0⟩]
        [⟨some 7, some "https://reddit.com/",
          some ⟨"https:", "", "", "reddit.com", "", "/", "", ""⟩⟩]
        emptyBlockerState).1 = [] :=
  c8_amended_unknown_site_revoke_empty "nope"
    [⟨"s1", "r", [⟨"reddit.com", false⟩], none, true, 0⟩]
    [⟨some 7, some "https://reddit.com/",
      some ⟨"https:", "", "", "reddit.com", "", "/", "", ""⟩⟩]
    emptyBlockerState (by decide)

/-- C1 counterexample: two enabled sites, both matching the URL; the first
has a live unlock grant, the second has none.  `shouldBlockUrl` skips the
unlocked first site and blocks on the second, while the
`findMatchingBlockedSite`-then-`isSiteUnlocked` pipeline picks the first
site and reports not blocked — the two backends disagree, so the claimed
agreement fails at this input. -/
theorem c1_counterexample :
    (shouldBlockUrl (some ⟨"https:", "", "", "reddit.com", "", "/", "", ""⟩) 0
        ⟨fun k => if k == "a" then some ⟨"a", 100⟩ else none, fun _ => none⟩
        [⟨"a", "a", [⟨"reddit.com", false⟩], none, true, 0⟩,
         ⟨"b", "b", [⟨"reddit.com", false⟩], none, true, 0⟩]).1 = true ∧
    checkAndBlockUrlDecision (some ⟨"https:", "", "", "reddit.com", "", "/", "", ""⟩) 0
        ⟨fun k => if k == "a" then some ⟨"a", 100⟩ else none, fun _ => none⟩
        [⟨"a", "a", [⟨"reddit.com", false⟩], none, true, 0⟩,
         ⟨"b", "b", [⟨"reddit.com", false⟩], none, true, 0⟩] = false := by
  constructor
  · decide
  · decide

/-- C1 amended: `shouldBlockUrl` agrees with `findMatchingBlockedSite`
applied to the site list with currently-unlocked sites filtered out: it
blocks exactly when a first site in list order among the sites without a
live grant matches the URL, returning that site.  (It agrees with the
`findMatchingBlockedSite`-then-`isSiteUnlocked` pipeline only when the
first matching site overall has no live grant.) -/
theorem c1_amended_shouldBlockUrl_filtered (url : Option URLParts) (now : Nat)
    (st : BlockerState) (sites : List BlockedSite) :
    shouldBlockUrl url now st sites =
      match findMatchingBlockedSite url
          (sites.filter (fun s => !hasLiveGrant st s.id now)) with
      | some site => (true, some site)
      | none => (false, none) := by
  induction sites with
  | nil => rfl
  | cons site rest ih =>
    rw [List.filter_cons]
    by_cases hlg : hasLiveGrant st site.id now = true
    · rw [if_neg (by simp [hlg])]
      by_cases hen : site.enabled = true
      · simp only [shouldBlockUrl]
        rw [if_neg (by simp [hen]), if_pos hlg]
        exact ih
      · rw [Bool.not_eq_true] at hen
        simp only [shouldBlockUrl]
        rw [if_pos (by simp [hen])]
        exact ih
    · rw [Bool.not_eq_true] at hlg
      rw [if_pos (by simp [hlg])]
      by_cases hen : site.enabled = true
      · by_cases hm : urlMatchesSiteRules url site = true
        · simp only [shouldBlockUrl, findMatchingBlockedSite]
          rw [if_neg (by simp [hen]), if_neg (by simp [hlg]), if_pos hm,
            List.find?_cons_of_pos _ hm]
        · rw [Bool.not_eq_true] at hm
          simp only [shouldBlockUrl, findMatchingBlockedSite]
          rw [if_neg (by simp [hen]), if_neg (by simp [hlg]), if_neg (by simp [hm]),
            List.find?_cons_of_neg _ (by simp [hm])]
          exact ih
      · rw [Bool.not_eq_true] at hen
        have hm : urlMatchesSiteRules url site = false := by
          simp [urlMatchesSiteRules, hen]
        simp only [shouldBlockUrl, findMatchingBlockedSite]
        rw [if_pos (by simp [hen]), List.find?_cons_of_neg _ (by simp [hm])]
        exact ih

/-- C3: for every parsed URL and every lowercase, slash-free,
whitespace-free domain string `d`, the host-only pattern `"*." ++ d`
matches exactly when the lowercased hostname with one leading `www.`
removed equals `d` or ends with `"." ++ d`. -/
theorem c3_star_dot_suffix_match (u : URLParts) (d : String)
    (hslash : containsChar d.data '/' = false)
    (hlower : lowerStr d.data = d.data)
    (hws : d.data.all (fun c => !jsWhitespace c) = true) :
    urlMatchesPattern (some u) ("*." ++ d) =
      (stripWww (lowerStr u.hostname.data) == d.data ||
        List.isSuffixOf ('.' :: d.data) (stripWww (lowerStr u.hostname.data))) := by
  have hws' : ∀ c ∈ d.data, jsWhitespace c = false := by
    intro c hc
    have h1 := List.all_eq_true.mp hws c hc
    simpa using h1
  have hall : ∀ c ∈ ('*' :: '.' :: d.data), jsWhitespace c = false := by
    intro c hc
    rcases List.mem_cons.mp hc with rfl | hc2
    · rfl
    rcases List.mem_cons.mp hc2 with rfl | hc3
    · rfl
    · exact hws' c hc3
  have hdata : ("*." ++ d).data = '*' :: '.' :: d.data := by
    rw [String.data_append]
    rfl
  have hlowpat : lowerStr ('*' :: '.' :: d.data) = '*' :: '.' :: d.data := by
    show '*' :: '.' :: lowerStr d.data = '*' :: '.' :: d.data
    rw [hlower]
  have hnorm : normalizePattern ('*' :: '.' :: d.data) = '*' :: '.' :: d.data := by
    rw [normalizePattern, hlowpat, trimEnds_eq_self _ hall]
    rfl
  have hcont : containsChar ('*' :: '.' :: d.data) '/' = false := by
    show containsChar d.data '/' = false
    exact hslash
  show urlMatchesPatternCore u.hostname.data u.pathname.data ("*." ++ d).data = _
  rw [hdata]
  simp only [urlMatchesPatternCore]
  rw [hnorm, hcont]
  simp only [Bool.false_eq_true, if_false]
  simp only [hostPatternMatches, isStarDot, if_true]
  rw [lowerStr_idem]
  rfl

/-- Witness for C3 at a concrete subdomain URL and domain. -/
theorem c3_witness :
    urlMatchesPattern (some ⟨"https:", "", "", "old.reddit.com", "", "/", "", ""⟩)
        ("*." ++ "reddit.com") =
      (stripWww (lowerStr "old.reddit.com".data) == "reddit.com".data ||
        List.isSuffixOf ('.' :: "reddit.com".data)
          (stripWww (lowerStr "old.reddit.com".data))) :=
  c3_star_dot_suffix_match ⟨"https:", "", "", "old.reddit.com", "", "/", "", ""⟩
    "reddit.com" (by decide) (by decide) (by decide)

/-- C4: for every pattern whose normalized form contains a `/` with a
star-free path part, and every parsed URL whose host matches the pattern's
host part, the match succeeds exactly when the URL's normalized path
equals the pattern's path ignoring a single trailing slash, or is a strict
sub-path of it (pattern path followed by `/`); concretely,
`"x.com/messages"` matches `https://x.com/messages/123` but not
`https://x.com/home`. -/
theorem c4_path_scoped_match (u : URLParts) (pattern : String)
    (hs : containsChar (normalizePattern pattern.data) '/' = true)
    (hstar : containsChar
        (lowerStr ((normalizePattern pattern.data).dropWhile (fun c => !(c == '/'))))
        '*' = false)
    (hhost : hostPatternMatches (lowerStr u.hostname.data)
        ((normalizePattern pattern.data).takeWhile (fun c => !(c == '/'))) = true) :
    (urlMatchesPattern (some u) pattern =
      (stripTrailingSlash (lowerStr u.pathname.data) ==
          stripTrailingSlash
            (lowerStr ((normalizePattern pattern.data).dropWhile (fun c => !(c == '/')))) ||
        List.isPrefixOf
          (stripTrailingSlash
              (lowerStr ((normalizePattern pattern.data).dropWhile (fun c => !(c == '/'))))
            ++ ['/'])
          (stripTrailingSlash (lowerStr u.pathname.data)))) ∧
    urlMatchesPattern
        (some ⟨"https:", "", "", "x.com", "", "/messages/123", "", ""⟩)
        "x.com/messages" = true ∧
    urlMatchesPattern (some ⟨"https:", "", "", "x.com", "", "/home", "", ""⟩)
        "x.com/messages" = false := by
  refine ⟨?_, by decide, by decide⟩
  show urlMatchesPatternCore u.hostname.data u.pathname.data pattern.data = _
  simp only [urlMatchesPatternCore]
  rw [hs, if_pos rfl, hhost]
  simp only [Bool.not_true, Bool.false_eq_true, if_false]
  rw [hstar]
  simp only [Bool.false_eq_true, if_false]
  rw [lowerStr_idem]

/-- Witness for C4 at the concrete path-scoped pattern of the claim. -/
theorem c4_witness :
    urlMatchesPattern (some ⟨"https:", "", "", "x.com", "", "/messages/123", "", ""⟩)
        "x.com/messages" =
      (stripTrailingSlash (lowerStr "/messages/123".data) ==
          stripTrailingSlash
            (lowerStr ((normalizePattern "x.com/messages".data).dropWhile
              (fun c => !(c == '/')))) ||
        List.isPrefixOf
          (stripTrailingSlash
              (lowerStr ((normalizePattern "x.com/messages".data).dropWhile
                (fun c => !(c == '/'))))
            ++ ['/'])
          (stripTrailingSlash (lowerStr "/messages/123".data))) :=
  (c4_path_scoped_match ⟨"https:", "", "", "x.com", "", "/messages/123", "", ""⟩
    "x.com/messages" (by decide) (by decide) (by decide)).1
